import Mathlib

/-!
Verification of the koa-ts request/response core.

Shallow embedding of `src/response.ts`, `src/application.ts` and the
request facade (`src/unnamed/part_000`, the Request class).  Node's
mutable `ServerResponse` is modelled as an explicit record threaded
through the setters; JavaScript numbers appearing as status codes are
modelled as `Rat` (so that non-integer inputs are expressible); header
bags are association lists with the lower-casing behaviour of Node's
`setHeader`/`getHeader`/`removeHeader`/`hasHeader`.
-/

set_option autoImplicit false

namespace KoaTS

/-! ### Characters and strings -/

/-- Lower-case an ASCII letter (Node lower-cases header names). -/
def lowerChar (c : Char) : Char :=
  if 'A' ≤ c ∧ c ≤ 'Z' then Char.ofNat (c.toNat + 32) else c

/-- Lower-case a string character-wise (ASCII, as Node does for header names). -/
def lowerStr (s : String) : String :=
  String.mk (s.data.map lowerChar)

/-- JavaScript regex whitespace class `\s` restricted to the ASCII
whitespace characters (the Unicode members are irrelevant to header values). -/
def jsWs (c : Char) : Bool :=
  c = ' ' || c = '\t' || c = '\n' || c = '\r' || c = '\x0b' || c = '\x0c'

/-- `/^\s*</.test(val)` from the body setter of `src/response.ts`:
the string starts with `<` once leading whitespace is dropped. -/
def jsLeadingLt (s : String) : Bool :=
  match s.data.dropWhile jsWs with
  | '<' :: _ => true
  | _ => false

/-- Split a character list on `,` (every comma is a separator;
`[]` input yields one empty field, as `String.prototype.split` does). -/
def splitCommaCh : List Char → List (List Char)
  | [] => [[]]
  | c :: rest =>
    match splitCommaCh rest with
    | [] => [[c]]
    | h :: t => if c = ',' then [] :: h :: t else (c :: h) :: t

/-- Drop leading JS whitespace. -/
def dropWs (l : List Char) : List Char := l.dropWhile jsWs

/-- Drop trailing JS whitespace. -/
def dropWsEnd (l : List Char) : List Char := (l.reverse.dropWhile jsWs).reverse

/-- Trim the comma-split fields the way the regex split `\s*,\s*` does:
whitespace adjacent to a separator comma is consumed, whitespace at the
two ends of the whole string is kept.  The first argument is the index
of the current field (0 for the first). -/
def trimParts : Nat → List (List Char) → List (List Char)
  | _, [] => []
  | i, [p] => [if i = 0 then p else dropWs p]
  | i, p :: q :: rest =>
    dropWsEnd (if i = 0 then p else dropWs p) :: trimParts (i + 1) (q :: rest)

/-- `val.split(/\s*,\s*/)` from the `ips` getter of the Request class. -/
def splitCommaWs (s : String) : List String :=
  (trimParts 0 (splitCommaCh s.data)).map String.mk

/-- `parseInt(s, 10) || 0` as used by the `length` getter on a
Content-Length header value: leading whitespace skipped, then the longest
prefix of decimal digits; anything unparsable collapses to `0`
(Content-Length values are never negative, so the sign prefix is omitted). -/
def parseInt10 (s : String) : Nat :=
  let ds := (s.data.dropWhile jsWs).takeWhile Char.isDigit
  ds.foldl (fun n c => n * 10 + (c.toNat - 48)) 0

/-! ### Header bags

Node stores response headers keyed by the lower-cased field name;
`setHeader` replaces any previous value, `getHeader`/`hasHeader` look the
lower-cased name up, `removeHeader` deletes it.  A header value is a
string or an array of strings. -/

/-- A Node header value: a string or an array of strings. -/
inductive HVal where
  | str (s : String)
  | arr (l : List String)
  deriving DecidableEq, Repr

/-- JS truthiness of a header value (`''` is falsy, arrays are truthy). -/
def HVal.truthy : HVal → Bool
  | .str s => s ≠ ""
  | .arr _ => true

/-- View a header value as the list `Array.prototype.concat` operates on. -/
def HVal.toList : HVal → List String
  | .str s => [s]
  | .arr l => l

/-- The header association list; keys are stored lower-cased. -/
abbrev Headers := List (String × HVal)

/-- `res.getHeader(f)`. -/
def hdrGet (hs : Headers) (f : String) : Option HVal :=
  (hs.find? (fun p => p.1 == lowerStr f)).map (·.2)

/-- `res.hasHeader(f)`. -/
def hdrHas (hs : Headers) (f : String) : Bool :=
  (hdrGet hs f).isSome

/-- `res.setHeader(f, v)`: replaces any entry for the lower-cased name. -/
def hdrSet (hs : Headers) (f : String) (v : HVal) : Headers :=
  hs.filter (fun p => p.1 ≠ lowerStr f) ++ [(lowerStr f, v)]

/-- `res.removeHeader(f)`. -/
def hdrRemove (hs : Headers) (f : String) : Headers :=
  hs.filter (fun p => p.1 ≠ lowerStr f)

/-! ### JSON values

`JSON.stringify` over the structured bodies the code can serialize
(floating-point numbers are not modelled; integers suffice for the
claims about serialized byte lengths). -/

/-- A JSON-serializable JavaScript value. -/
inductive JVal where
  | jnull
  | jbool (b : Bool)
  | jnum (n : Int)
  | jstr (s : String)
  | jarr (l : List JVal)
  | jobj (l : List (String × JVal))

/-- One hexadecimal digit, lower-case. -/
def hexDigit (n : Nat) : Char :=
  Char.ofNat (if n < 10 then 48 + n else 87 + n)

/-- `JSON.stringify` escaping of one character inside a string literal. -/
def jsonEscapeChar (c : Char) : String :=
  if c = '"' then "\\\""
  else if c = '\\' then "\\\\"
  else if c = '\n' then "\\n"
  else if c = '\r' then "\\r"
  else if c = '\t' then "\\t"
  else if c.toNat < 32 then
    String.mk ['\\', 'u', '0', '0', hexDigit (c.toNat / 16), hexDigit (c.toNat % 16)]
  else String.mk [c]

/-- `JSON.stringify` of a string. -/
def jsonQuote (s : String) : String :=
  "\"" ++ String.join (s.data.map jsonEscapeChar) ++ "\""

mutual

/-- `JSON.stringify` of a value. -/
def JVal.stringify : JVal → String
  | .jnull => "null"
  | .jbool true => "true"
  | .jbool false => "false"
  | .jnum n => toString n
  | .jstr s => jsonQuote s
  | .jarr l => "[" ++ String.intercalate "," (stringifyList l) ++ "]"
  | .jobj l => "\x7b" ++ String.intercalate "," (stringifyPairs l) ++ "\x7d"

/-- The serializations of the elements of a JSON array. -/
def stringifyList : List JVal → List String
  | [] => []
  | x :: xs => x.stringify :: stringifyList xs

/-- The serialized `key:value` members of a JSON object. -/
def stringifyPairs : List (String × JVal) → List String
  | [] => []
  | (k, v) :: xs => (jsonQuote k ++ ":" ++ v.stringify) :: stringifyPairs xs

end

/-- JS truthiness of a structured value. -/
def JVal.truthy : JVal → Bool
  | .jnull => false
  | .jbool b => b
  | .jnum n => n ≠ 0
  | .jstr s => s ≠ ""
  | .jarr _ => true
  | .jobj _ => true

/-! ### Bodies and status tables -/

/-- The value of `Response._body`: exactly one of absent (`undefined`),
`null`, string, buffer, stream (identified by reference id) or any other
JSON-serializable value. -/
inductive BodyVal where
  | absent
  | nullv
  | str (s : String)
  | buf (b : List Nat)
  | stream (sid : Nat)
  | json (j : JVal)

/-- `val === null` in JS: exactly the `null` value. -/
def BodyVal.isNull : BodyVal → Bool
  | .nullv => true
  | _ => false

/-- `val == null` in JS: both `null` and `undefined`. -/
def BodyVal.isNullish : BodyVal → Bool
  | .absent => true
  | .nullv => true
  | _ => false

/-- JS truthiness of a body value (`''`, `0`, `false` are falsy). -/
def BodyVal.truthy : BodyVal → Bool
  | .absent => false
  | .nullv => false
  | .str s => s ≠ ""
  | .buf _ => true
  | .stream _ => true
  | .json j => j.truthy

/-- `statuses.empty[code]` from the `statuses` library: the status codes
that allow no response body. -/
def statusEmpty (c : Nat) : Bool :=
  c == 204 || c == 205 || c == 304

/-- `statuses[code]`, the reason-phrase table of the `statuses` library
(external dependency; the subset of codes this development touches). -/
def statusMessageOf : Nat → Option String
  | 200 => some "OK"
  | 201 => some "Created"
  | 202 => some "Accepted"
  | 204 => some "No Content"
  | 205 => some "Reset Content"
  | 302 => some "Found"
  | 304 => some "Not Modified"
  | 400 => some "Bad Request"
  | 404 => some "Not Found"
  | 500 => some "Internal Server Error"
  | _ => none

/-- `getType` from the `cache-content-type` library (external dependency),
for the type tokens this code passes it: file-extension style tokens map
to a full content type, a string containing `/` is accepted as given, and
anything unresolvable yields `false` (here `none`). -/
def getType : String → Option String
  | "html" => some "text/html; charset=utf-8"
  | "text" => some "text/plain; charset=utf-8"
  | "bin" => some "application/octet-stream"
  | "json" => some "application/json; charset=utf-8"
  | t => if t.data.contains '/' then some t else none

/-! ### The Response facade (`src/response.ts`) -/

/-- The slice of Node's `ServerResponse` that `Response` reads and writes. -/
structure NodeRes where
  statusCode : Nat
  statusMessage : Option String
  headersSent : Bool
  headers : Headers

/-- The `Response` facade: the raw response plus the facade's own fields
(`_body`, `_explicitStatus`, `_explicitNullBody`) and the paired request's
`httpVersionMajor`. -/
structure Resp where
  res : NodeRes
  body : BodyVal
  explicitStatus : Bool
  explicitNullBody : Bool
  httpVersionMajor : Nat

/-- `get headerSent()`. -/
def Resp.headerSent (r : Resp) : Bool := r.res.headersSent

/-- `get(field)`: `res.getHeader(field)`. -/
def Resp.get (r : Resp) (f : String) : Option HVal := hdrGet r.res.headers f

/-- `has(field)`: `res.hasHeader(field)`. -/
def Resp.has (r : Resp) (f : String) : Bool := hdrHas r.res.headers f

/-- `set(field, val)` (the two-argument form): a no-op once headers are
sent, else `res.setHeader` (values are already strings here, so the
`String(...)` coercion is the identity). -/
def Resp.set (r : Resp) (f : String) (v : HVal) : Resp :=
  if r.res.headersSent then r
  else { r with res := { r.res with headers := hdrSet r.res.headers f v } }

/-- `remove(field)`: a no-op once headers are sent, else `res.removeHeader`. -/
def Resp.remove (r : Resp) (f : String) : Resp :=
  if r.res.headersSent then r
  else { r with res := { r.res with headers := hdrRemove r.res.headers f } }

/-- `append(field, val)`: concatenates onto the previous value when that
is truthy, then delegates to `set`. -/
def Resp.append (r : Resp) (f : String) (v : HVal) : Resp :=
  match r.get f with
  | some prev =>
    if prev.truthy then r.set f (.arr (prev.toList ++ v.toList)) else r.set f v
  | none => r.set f v

/-- `get type()`: the Content-Type header up to the first `;`, or `''`.
(A Content-Type stored as an array is not produced by this code and is
treated as absent.) -/
def Resp.type (r : Resp) : String :=
  match r.get "Content-Type" with
  | some (.str t) => String.mk (t.data.takeWhile (fun c => c ≠ ';'))
  | _ => ""

/-- `set type(type)`: sets Content-Type via `getType`, or removes it when
the token does not resolve. -/
def Resp.typeSet (r : Resp) (t : String) : Resp :=
  match getType t with
  | some ct => r.set "Content-Type" (.str ct)
  | none => r.remove "Content-Type"

/-- `get message()`: `res.statusMessage || statuses[this.status]`. -/
def Resp.message (r : Resp) : Option String :=
  match r.res.statusMessage with
  | some m => if m ≠ "" then some m else statusMessageOf r.res.statusCode
  | none => statusMessageOf r.res.statusCode

/-- `set length(n)`: writes Content-Length only when no Transfer-Encoding
header is present (`set` coerces the number with `String(...)`). -/
def Resp.lengthSet (r : Resp) (n : Nat) : Resp :=
  if r.has "Transfer-Encoding" then r
  else r.set "Content-Length" (.str (toString n))

/-- `get length()`: an explicit Content-Length parses with
`parseInt(..., 10) || 0`; otherwise the length is derived from the body —
`undefined` for falsy or stream bodies, the UTF-8 byte length of a string,
the byte count of a buffer, the byte length of the JSON serialization
otherwise. -/
def Resp.lengthGet (r : Resp) : Option Nat :=
  if r.has "Content-Length" then
    some (match r.get "Content-Length" with
      | some (.str s) => parseInt10 s
      | _ => 0)
  else if r.body.truthy = false then none
  else
    match r.body with
    | .stream _ => none
    | .str s => some s.utf8ByteSize
    | .buf b => some b.length
    | .json j => some j.stringify.utf8ByteSize
    | _ => none

/-- The tail of the body setter's null branch, after the status handling:
`if (val === null) this._explicitNullBody = true` followed by the removal
of Content-Type, Content-Length and Transfer-Encoding. -/
def Resp.bodyNullTail (r : Resp) (explicitNull : Bool) : Resp :=
  let r := if explicitNull then { r with explicitNullBody := true } else r
  ((r.remove "Content-Type").remove "Content-Length").remove "Transfer-Encoding"

/-- `this.body = null` as invoked from inside the status setter.  There the
status just became one of the empty-class codes, so the body setter's null
branch skips its status adjustment and reduces to: store `null`, record the
explicit null body, and strip the three headers.  Factored out so that the
status setter and the body setter need no mutual recursion. -/
def Resp.setBodyNullCleared (r : Resp) : Resp :=
  Resp.bodyNullTail { r with body := .nullv } true

/-- The body of the status setter after its `headerSent` guard and its two
assertions: record the explicit status, write the code through, refresh the
reason phrase on HTTP/1, and clear a truthy body when the new code allows
no body. -/
def Resp.setStatusCore (r : Resp) (code : Nat) : Resp :=
  let r := { r with explicitStatus := true }
  let r := { r with res := { r.res with statusCode := code } }
  let r :=
    if r.httpVersionMajor < 2 then
      { r with res := { r.res with statusMessage := statusMessageOf code } }
    else r
  if r.body.truthy && statusEmpty code then r.setBodyNullCleared else r

/-- The status setter as invoked internally with a known-valid literal code
(`this.status = 204`, `this.status = 200`): the `headerSent` guard applies,
the assertions trivially pass. -/
def Resp.statusAssign (r : Resp) (code : Nat) : Resp :=
  if r.res.headersSent then r else r.setStatusCore code

/-- An assertion failure raised by the status setter. -/
inductive StatusErr where
  | notInteger
  | outOfRange
  deriving DecidableEq, Repr

/-- `set status(code)` from `src/response.ts`: returns untouched once
headers are sent; asserts the code is an integer in 100–999; then updates
the raw response.  The JS `number` argument is modelled as `Rat` so that
non-integer inputs are expressible. -/
def Resp.statusSet (r : Resp) (code : ℚ) : Except StatusErr Resp :=
  if r.res.headersSent then .ok r
  else if ¬ code.isInt then .error .notInteger
  else if ¬ (100 ≤ code ∧ code ≤ 999) then .error .outOfRange
  else .ok (r.setStatusCore code.num.toNat)

/-- `original !== val` for the stream branch of the body setter: `val` is a
stream, and object comparison in JS is by reference. -/
def BodyVal.isSameStream (original : BodyVal) (sid : Nat) : Bool :=
  match original with
  | .stream i => i == sid
  | _ => false

/-- `set body(val)` from `src/response.ts` — the core state machine.
The stream branch's `onFinish`/`destroy` hook and `error`-listener wiring
touch only the transport and the context error path, not the response
state modelled here. -/
def Resp.setBody (r0 : Resp) (val : BodyVal) : Resp :=
  let original := r0.body
  let r : Resp := { r0 with body := val }
  if val.isNullish then
    -- no content
    if statusEmpty r.res.statusCode = false then
      if r.type = "application/json" then { r with body := .str "null" }
      else (r.statusAssign 204).bodyNullTail val.isNull
    else r.bodyNullTail val.isNull
  else
    -- set the status
    let r := if r.explicitStatus = false then r.statusAssign 200 else r
    -- set the content-type only if not yet set
    let setType := r.has "Content-Type" = false
    match val with
    | .str s =>
      let r := if setType then r.typeSet (if jsLeadingLt s then "html" else "text") else r
      r.lengthSet s.utf8ByteSize
    | .buf b =>
      let r := if setType then r.typeSet "bin" else r
      r.lengthSet b.length
    | .stream sid =>
      let r :=
        if original.isSameStream sid = false ∧ original.isNullish = false then
          r.remove "Content-Length"
        else r
      if setType then r.typeSet "bin" else r
    | .json _ => (r.remove "Content-Length").typeSet "json"
    | _ => r  -- absent / nullv: unreachable, handled by the nullish branch

/-- `append(header, field)` from the `vary` library (external dependency):
leave the header alone when it already lists the field or `*`; `*`
collapses everything; otherwise append with a comma. -/
def varyAppendStr (header : String) (field : String) : String :=
  let fields := ((splitCommaWs header).filter (fun t => t ≠ "")).map lowerStr
  if fields.contains "*" then header
  else if field = "*" then "*"
  else if fields.contains (lowerStr field) then header
  else if header = "" then field else header ++ ", " ++ field

/-- `vary(field)`: a no-op once headers are sent, else the `vary` library
updates the Vary header (an array value is joined before parsing). -/
def Resp.varyF (r : Resp) (field : String) : Resp :=
  if r.res.headersSent then r
  else
    let cur := match r.get "Vary" with
      | none => ""
      | some (.str s) => s
      | some (.arr l) => String.intercalate ", " l
    r.set "Vary" (.str (varyAppendStr cur field))

/-! ### The Finalizer (`respond` in `src/application.ts`)

The context aggregate.  `src/context.ts` in this repository contains no
accessor definitions, so the delegation `ctx.body` / `ctx.status` /
`ctx.method` / `ctx.length` / `ctx.type` / `ctx.message` / `ctx.writable`
→ the paired facades is modelled from the spec (§3, §4.4): the context
binds one RequestFacade and one ResponseFacade and forwards to them.
`ctx.respond === false` is the explicit auto-respond opt-out;
`writable` abstracts the transport's socket state. -/
structure Ctx where
  resp : Resp
  method : String
  respondFlag : Bool
  writable : Bool

/-- What the Finalizer handed to the transport. -/
inductive Payload where
  | pstr (s : String)
  | pbuf (b : List Nat)

/-- The terminal transport action of the Finalizer: skipped entirely,
`res.end(...)` with an optional payload, or a stream piped through. -/
inductive WriteAction where
  | skipped
  | ended (payload : Option Payload)
  | piped (sid : Nat)

/-- `respond(ctx)` from `src/application.ts`: the final context state and
the transport action. -/
def respond (ctx : Ctx) : Ctx × WriteAction :=
  if ctx.respondFlag = false then (ctx, .skipped)
  else if ctx.writable = false then (ctx, .skipped)
  else
    let body := ctx.resp.body
    let code := ctx.resp.res.statusCode
    -- ignore body
    if statusEmpty code then
      ({ ctx with resp := ctx.resp.setBody .nullv }, .ended none)
    else if ctx.method = "HEAD" then
      let resp :=
        if ctx.resp.res.headersSent = false ∧ ctx.resp.has "Content-Length" = false then
          match ctx.resp.lengthGet with
          | some n => ctx.resp.lengthSet n
          | none => ctx.resp
        else ctx.resp
      ({ ctx with resp := resp }, .ended none)
    -- status body
    else if body.isNullish then
      if ctx.resp.explicitNullBody then
        let resp := (((ctx.resp.remove "Content-Type").remove "Transfer-Encoding").lengthSet 0)
        ({ ctx with resp := resp }, .ended none)
      else
        let bstr :=
          if 2 ≤ ctx.resp.httpVersionMajor then toString code
          else
            match ctx.resp.message with
            | some m => if m ≠ "" then m else toString code
            | none => toString code
        let resp :=
          if ctx.resp.res.headersSent = false then
            (ctx.resp.typeSet "text").lengthSet bstr.utf8ByteSize
          else ctx.resp
        ({ ctx with resp := resp }, .ended (some (.pstr bstr)))
    -- responses
    else
      match body with
      | .buf b => (ctx, .ended (some (.pbuf b)))
      | .str s => (ctx, .ended (some (.pstr s)))
      | .stream sid => (ctx, .piped sid)
      | .json j =>
        let s := j.stringify
        let resp :=
          if ctx.resp.res.headersSent = false then ctx.resp.lengthSet s.utf8ByteSize
          else ctx.resp
        ({ ctx with resp := resp }, .ended (some (.pstr s)))
      | _ => (ctx, .skipped)  -- absent / nullv: unreachable, handled above

/-! ### The application error hook (`Application.onerror`) -/

/-- The value thrown out of a handler, as `Application.onerror` inspects
it: whether it is a genuine `Error` (the cross-globals
`Object.prototype.toString` check or `instanceof`), its `status` and
`expose` fields, and its `stack` / `toString()` texts (`stack` may be the
empty string, which JS treats as absent in `err.stack || err.toString()`). -/
structure ErrVal where
  isError : Bool
  status : Option Int
  expose : Bool
  stack : String
  tostr : String

/-- Split a string on newlines (char-level, so it evaluates by `decide`). -/
def splitNl (s : String) : List String :=
  let rec go : List Char → List (List Char)
    | [] => [[]]
    | c :: rest =>
      match go rest with
      | [] => [[c]]
      | h :: t => if c = '\n' then [] :: h :: t else (c :: h) :: t
  (go s.data).map String.mk

/-- `msg.replace(/^/gm, '  ')`: prefix every line with two spaces
(`^` in multiline mode also matches after a trailing newline). -/
def indentLines (s : String) : String :=
  String.intercalate "\n" ((splitNl s).map (fun l => "  " ++ l))

/-- `err.stack || err.toString()`. -/
def ErrVal.msg (e : ErrVal) : String :=
  if e.stack ≠ "" then e.stack else e.tostr

/-- `Application.onerror(err)` from `src/application.ts`.  `silent` is the
application's `silent` flag.  The result is `.error` for the `TypeError`
thrown on a non-error value (the real message appends the `%j`-serialized
value), `.ok none` when nothing is written to the operator channel, and
`.ok (some out)` for the text written with `console.error`. -/
def Application.onerror (silent : Bool) (e : ErrVal) : Except String (Option String) :=
  if e.isError = false then .error "non-error thrown"
  else if e.status = some 404 ∨ e.expose = true then .ok none
  else if silent then .ok none
  else .ok (some ("\n" ++ indentLines e.msg ++ "\n"))

/-! ### The request facade (`ips`) -/

/-- The application configuration the request facade reads. -/
structure AppCfg where
  proxy : Bool
  proxyIpHeader : String
  maxIpsCount : Nat

/-- The wrapped inbound message: its headers (keys stored lower-cased, as
Node delivers them). -/
structure ReqSt where
  headers : List (String × String)

/-- `req.headers[field] || ''`. -/
def ReqSt.hget (rq : ReqSt) (f : String) : String :=
  ((rq.headers.find? (fun p => p.1 == f)).map (·.2)).getD ""

/-- `get(field)` from the Request class: lower-cases the name and aliases
referrer/referer (`headers.referrer || headers.referer || ''`). -/
def ReqSt.get (rq : ReqSt) (field : String) : String :=
  let f := lowerStr field
  if f = "referer" ∨ f = "referrer" then
    if rq.hget "referrer" ≠ "" then rq.hget "referrer" else rq.hget "referer"
  else rq.hget f

/-- `get ips()` from the Request class: when proxying is trusted and the
configured forwarding header is truthy, split it on `/\s*,\s*/`; when
`maxIpsCount > 0`, keep only the last `maxIpsCount` entries (`slice(-n)`). -/
def Request.ips (app : AppCfg) (rq : ReqSt) : List String :=
  let val := rq.get app.proxyIpHeader
  let ips := if app.proxy = true ∧ val ≠ "" then splitCommaWs val else []
  if 0 < app.maxIpsCount then ips.drop (ips.length - app.maxIpsCount) else ips

/-! ### The ComposeEngine

Modelled from the spec: `src/compose` is imported by `src/application.ts`
but is not among the provided sources.  Spec §4.1: each handler receives a
bound `next` that dispatches the following handler; one execution keeps a
private cursor, and a repeated invocation of any handler's `next` fails
with "next() called multiple times", checked before anything else runs.
A handler is modelled by the number of times it invokes its `next`
sequentially (its other work cannot affect dispatch control flow); the
cursor (`index`) is threaded explicitly, and dispatching past the end of
the list resolves as a completed no-op. -/

mutual

/-- `dispatch(i)` of the composed pipeline over `mws`, with the execution's
cursor at `index`: a repeated call fails, otherwise the cursor moves to `i`
and handler `i` (when there is one) runs its `next` calls.  Returns the
final cursor. -/
def dispatch (mws : List Nat) (i : Nat) (index : Int) : Except String Int :=
  if (i : Int) ≤ index then .error "next() called multiple times"
  else
    match _h : mws[i]? with
    | none => .ok (i : Int)
    | some n => callNexts mws n (i + 1) (i : Int)
termination_by (mws.length + 1 - i, 0)
decreasing_by
  have hi : i < mws.length := by
    by_contra hge
    rw [List.getElem?_eq_none (Nat.le_of_not_lt hge)] at _h
    cases _h
  simp_wf
  exact Prod.Lex.left _ _ (by omega)

/-- Handler `i - 1`'s body: `k` sequential invocations of its bound `next`
(which dispatches position `j`), threading the cursor. -/
def callNexts (mws : List Nat) (k : Nat) (j : Nat) (index : Int) : Except String Int :=
  match k with
  | 0 => .ok index
  | k' + 1 =>
    match dispatch mws j index with
    | .error e => .error e
    | .ok index' => callNexts mws k' j index'
termination_by (mws.length + 1 - j, k)

end

/-- `compose(mws)(ctx)`: the composed entry point starts the cursor at -1
and dispatches handler 0. -/
def composeRun (mws : List Nat) : Except String Int :=
  dispatch mws 0 (-1)

/-! ### Concrete states for evaluating the theorems -/

/-- A response whose headers have already been sent. -/
def rSent : Resp :=
  { res := { statusCode := 200, statusMessage := some "OK", headersSent := true,
             headers := [("content-type", .str "text/plain; charset=utf-8")] },
    body := .str "hi", explicitStatus := true, explicitNullBody := false,
    httpVersionMajor := 1 }

/-- A fresh response: nothing sent, no headers, no body. -/
def rFresh : Resp :=
  { res := { statusCode := 200, statusMessage := some "OK", headersSent := false,
             headers := [] },
    body := .absent, explicitStatus := false, explicitNullBody := false,
    httpVersionMajor := 1 }

/-- A response with a JSON Content-Type and a structured body. -/
def rJsonCT : Resp :=
  { res := { statusCode := 200, statusMessage := some "OK", headersSent := false,
             headers := [("content-type", .str "application/json; charset=utf-8")] },
    body := .json (.jobj [("a", .jnum 1)]), explicitStatus := true,
    explicitNullBody := false, httpVersionMajor := 1 }

/-- A response carrying a Transfer-Encoding header. -/
def rTE : Resp :=
  { res := { statusCode := 200, statusMessage := some "OK", headersSent := false,
             headers := [("transfer-encoding", .str "chunked")] },
    body := .absent, explicitStatus := false, explicitNullBody := false,
    httpVersionMajor := 1 }

/-- A genuine unexposed error with a two-line stack. -/
def errBoom : ErrVal :=
  { isError := true, status := some 500, expose := false,
    stack := "Error: boom\n    at handler", tostr := "Error: boom" }

/-- The spec's `ips` example configuration: proxy trusted, default
forwarding header, at most one forwarded address kept. -/
def appFwd : AppCfg :=
  { proxy := true, proxyIpHeader := "X-Forwarded-For", maxIpsCount := 1 }

/-- The spec's `ips` example request. -/
def reqFwd : ReqSt :=
  { headers := [("x-forwarded-for", "1.1.1.1, 2.2.2.2")] }

/-- A context for a HEAD request whose handler set a string body. -/
def ctxHead : Ctx :=
  { resp := { res := { statusCode := 200, statusMessage := some "OK",
                       headersSent := false, headers := [] },
              body := .str "hello", explicitStatus := true,
              explicitNullBody := false, httpVersionMajor := 1 },
    method := "HEAD", respondFlag := true, writable := true }

theorem find?_filter_ne_eq_none (hs : Headers) (k : String) :
    (hs.filter (fun p => p.1 ≠ k)).find? (fun p => p.1 == k) = none := by
  induction hs with
  | nil => rfl
  | cons p t ih =>
    by_cases h : p.1 = k
    · simp [List.filter, h, ih]
    · simp [List.filter, h, List.find?, ih]

theorem find?_filter_ne_of_ne (hs : Headers) (k g : String) (hkg : k ≠ g) :
    (hs.filter (fun p => p.1 ≠ k)).find? (fun p => p.1 == g)
      = hs.find? (fun p => p.1 == g) := by
  induction hs with
  | nil => rfl
  | cons p t ih =>
    by_cases h : p.1 = k
    · have hg : ¬ p.1 = g := fun hc => hkg (h ▸ hc)
      rw [List.filter_cons_of_neg (by simp [h]), ih,
        List.find?_cons_of_neg _ (by simp [hg])]
    · rw [List.filter_cons_of_pos (by simp [h])]
      by_cases hg : p.1 = g
      · rw [List.find?_cons_of_pos _ (by simp [hg]),
          List.find?_cons_of_pos _ (by simp [hg])]
      · rw [List.find?_cons_of_neg _ (by simp [hg]),
          List.find?_cons_of_neg _ (by simp [hg]), ih]

theorem hdrGet_set_self (hs : Headers) (f : String) (v : HVal) :
    hdrGet (hdrSet hs f v) f = some v := by
  unfold hdrGet hdrSet
  rw [List.find?_append, find?_filter_ne_eq_none]
  simp [List.find?]

theorem hdrGet_set_ne (hs : Headers) (f g : String) (v : HVal)
    (h : lowerStr f ≠ lowerStr g) :
    hdrGet (hdrSet hs f v) g = hdrGet hs g := by
  unfold hdrGet hdrSet
  rw [List.find?_append, find?_filter_ne_of_ne hs _ _ h]
  cases hfind : hs.find? (fun p => p.1 == lowerStr g) with
  | none => simp [List.find?, beq_eq_false_iff_ne.mpr h]
  | some p => rfl

theorem hdrGet_remove_self (hs : Headers) (f : String) :
    hdrGet (hdrRemove hs f) f = none := by
  unfold hdrGet hdrRemove
  rw [find?_filter_ne_eq_none]
  rfl

theorem hdrGet_remove_ne (hs : Headers) (f g : String)
    (h : lowerStr f ≠ lowerStr g) :
    hdrGet (hdrRemove hs f) g = hdrGet hs g := by
  unfold hdrGet hdrRemove
  rw [find?_filter_ne_of_ne hs _ _ h]

theorem hdrHas_set_self (hs : Headers) (f : String) (v : HVal) :
    hdrHas (hdrSet hs f v) f = true := by
  simp [hdrHas, hdrGet_set_self]

theorem hdrHas_set_ne (hs : Headers) (f g : String) (v : HVal)
    (h : lowerStr f ≠ lowerStr g) :
    hdrHas (hdrSet hs f v) g = hdrHas hs g := by
  simp [hdrHas, hdrGet_set_ne hs f g v h]

theorem hdrHas_remove_self (hs : Headers) (f : String) :
    hdrHas (hdrRemove hs f) f = false := by
  simp [hdrHas, hdrGet_remove_self]

theorem hdrHas_remove_ne (hs : Headers) (f g : String)
    (h : lowerStr f ≠ lowerStr g) :
    hdrHas (hdrRemove hs f) g = hdrHas hs g := by
  simp [hdrHas, hdrGet_remove_ne hs f g h]

/-! ### Projection lemmas for the Response operations -/

@[simp] theorem Resp.headersSent_set (r : Resp) (f : String) (v : HVal) :
    (r.set f v).res.headersSent = r.res.headersSent := by
  unfold Resp.set; split <;> rfl

@[simp] theorem Resp.statusCode_set (r : Resp) (f : String) (v : HVal) :
    (r.set f v).res.statusCode = r.res.statusCode := by
  unfold Resp.set; split <;> rfl

@[simp] theorem Resp.body_set (r : Resp) (f : String) (v : HVal) :
    (r.set f v).body = r.body := by
  unfold Resp.set; split <;> rfl

@[simp] theorem Resp.explicitStatus_set (r : Resp) (f : String) (v : HVal) :
    (r.set f v).explicitStatus = r.explicitStatus := by
  unfold Resp.set; split <;> rfl

@[simp] theorem Resp.explicitNullBody_set (r : Resp) (f : String) (v : HVal) :
    (r.set f v).explicitNullBody = r.explicitNullBody := by
  unfold Resp.set; split <;> rfl

@[simp] theorem Resp.httpVersionMajor_set (r : Resp) (f : String) (v : HVal) :
    (r.set f v).httpVersionMajor = r.httpVersionMajor := by
  unfold Resp.set; split <;> rfl

@[simp] theorem Resp.headersSent_remove (r : Resp) (f : String) :
    (r.remove f).res.headersSent = r.res.headersSent := by
  unfold Resp.remove; split <;> rfl

@[simp] theorem Resp.statusCode_remove (r : Resp) (f : String) :
    (r.remove f).res.statusCode = r.res.statusCode := by
  unfold Resp.remove; split <;> rfl

@[simp] theorem Resp.body_remove (r : Resp) (f : String) :
    (r.remove f).body = r.body := by
  unfold Resp.remove; split <;> rfl

@[simp] theorem Resp.explicitStatus_remove (r : Resp) (f : String) :
    (r.remove f).explicitStatus = r.explicitStatus := by
  unfold Resp.remove; split <;> rfl

@[simp] theorem Resp.explicitNullBody_remove (r : Resp) (f : String) :
    (r.remove f).explicitNullBody = r.explicitNullBody := by
  unfold Resp.remove; split <;> rfl

@[simp] theorem Resp.httpVersionMajor_remove (r : Resp) (f : String) :
    (r.remove f).httpVersionMajor = r.httpVersionMajor := by
  unfold Resp.remove; split <;> rfl

theorem Resp.get_set_self (r : Resp) (f : String) (v : HVal)
    (hs : r.res.headersSent = false) : (r.set f v).get f = some v := by
  simp [Resp.set, hs, Resp.get, hdrGet_set_self]

theorem Resp.get_set_ne (r : Resp) (f g : String) (v : HVal)
    (h : lowerStr f ≠ lowerStr g) : (r.set f v).get g = r.get g := by
  unfold Resp.set Resp.get
  split
  · rfl
  · simp [hdrGet_set_ne _ _ _ _ h]

theorem Resp.has_set_self (r : Resp) (f : String) (v : HVal)
    (hs : r.res.headersSent = false) : (r.set f v).has f = true := by
  simp [Resp.set, hs, Resp.has, hdrHas_set_self]

theorem Resp.has_set_ne (r : Resp) (f g : String) (v : HVal)
    (h : lowerStr f ≠ lowerStr g) : (r.set f v).has g = r.has g := by
  unfold Resp.set Resp.has
  split
  · rfl
  · simp [hdrHas_set_ne _ _ _ _ h]

theorem Resp.get_remove_self (r : Resp) (f : String)
    (hs : r.res.headersSent = false) : (r.remove f).get f = none := by
  simp [Resp.remove, hs, Resp.get, hdrGet_remove_self]

theorem Resp.get_remove_ne (r : Resp) (f g : String)
    (h : lowerStr f ≠ lowerStr g) : (r.remove f).get g = r.get g := by
  unfold Resp.remove Resp.get
  split
  · rfl
  · simp [hdrGet_remove_ne _ _ _ h]

theorem Resp.has_remove_self (r : Resp) (f : String)
    (hs : r.res.headersSent = false) : (r.remove f).has f = false := by
  simp [Resp.remove, hs, Resp.has, hdrHas_remove_self]

theorem Resp.has_remove_ne (r : Resp) (f g : String)
    (h : lowerStr f ≠ lowerStr g) : (r.remove f).has g = r.has g := by
  unfold Resp.remove Resp.has
  split
  · rfl
  · simp [hdrHas_remove_ne _ _ _ h]

theorem Resp.bodyNullTail_statusCode (r : Resp) (b : Bool) :
    (r.bodyNullTail b).res.statusCode = r.res.statusCode := by
  unfold Resp.bodyNullTail
  split <;> simp

theorem Resp.bodyNullTail_headersSent (r : Resp) (b : Bool) :
    (r.bodyNullTail b).res.headersSent = r.res.headersSent := by
  unfold Resp.bodyNullTail
  split <;> simp

theorem Resp.bodyNullTail_body (r : Resp) (b : Bool) :
    (r.bodyNullTail b).body = r.body := by
  unfold Resp.bodyNullTail
  split <;> simp

theorem Resp.bodyNullTail_explicitStatus (r : Resp) (b : Bool) :
    (r.bodyNullTail b).explicitStatus = r.explicitStatus := by
  unfold Resp.bodyNullTail
  split <;> simp

theorem Resp.bodyNullTail_explicitNullBody_true (r : Resp) :
    (r.bodyNullTail true).explicitNullBody = true := by
  unfold Resp.bodyNullTail
  simp

theorem Resp.bodyNullTail_strips (r : Resp) (b : Bool)
    (hs : r.res.headersSent = false) :
    (r.bodyNullTail b).has "Content-Type" = false
    ∧ (r.bodyNullTail b).has "Content-Length" = false
    ∧ (r.bodyNullTail b).has "Transfer-Encoding" = false := by
  have hs1 : (if b then { r with explicitNullBody := true } else r).res.headersSent = false := by
    split <;> exact hs
  unfold Resp.bodyNullTail
  refine ⟨?_, ?_, ?_⟩
  · rw [Resp.has_remove_ne _ _ _ (by decide), Resp.has_remove_ne _ _ _ (by decide)]
    exact Resp.has_remove_self _ _ hs1
  · rw [Resp.has_remove_ne _ _ _ (by decide)]
    exact Resp.has_remove_self _ _ (by simp [hs1])
  · exact Resp.has_remove_self _ _ (by simp [hs1])

theorem Resp.setStatusCore_explicitStatus (r : Resp) (code : Nat) :
    (r.setStatusCore code).explicitStatus = true := by
  simp only [Resp.setStatusCore, Resp.setBodyNullCleared]
  split <;> split <;> simp [Resp.bodyNullTail_explicitStatus]

theorem Resp.setStatusCore_statusCode (r : Resp) (code : Nat) :
    (r.setStatusCore code).res.statusCode = code := by
  simp only [Resp.setStatusCore, Resp.setBodyNullCleared]
  split <;> split <;> simp [Resp.bodyNullTail_statusCode]

theorem Resp.setStatusCore_headersSent (r : Resp) (code : Nat) :
    (r.setStatusCore code).res.headersSent = r.res.headersSent := by
  simp only [Resp.setStatusCore, Resp.setBodyNullCleared]
  split <;> split <;> simp [Resp.bodyNullTail_headersSent]

theorem Resp.setStatusCore_body_cleared (r : Resp) (code : Nat)
    (h : (r.body.truthy && statusEmpty code) = true) :
    (r.setStatusCore code).body = .nullv := by
  simp only [Resp.setStatusCore, Resp.setBodyNullCleared]
  split <;> simp_all [Resp.bodyNullTail_body]

theorem Resp.setStatusCore_not_cleared (r : Resp) (code : Nat)
    (h : (r.body.truthy && statusEmpty code) = false) :
    (r.setStatusCore code).res.headers = r.res.headers
    ∧ (r.setStatusCore code).body = r.body := by
  simp only [Resp.setStatusCore, Resp.setBodyNullCleared]
  split <;> split <;> simp_all

/-! ### The claims -/

/-- C9: once headers have been sent, the status setter returns immediately
with the state untouched and raises no assertion, whatever the given code
is — the validation assertions are unreachable. -/
theorem status_setter_noop_after_headers_sent (r : Resp) (c : ℚ)
    (hs : r.res.headersSent = true) :
    r.statusSet c = .ok r := by
  simp [Resp.statusSet, hs]

/-- Witness for C9: a non-integer, out-of-range code on a sent response. -/
theorem status_setter_noop_after_headers_sent_witness :
    rSent.statusSet (5 / 2) = .ok rSent :=
  status_setter_noop_after_headers_sent rSent (5 / 2) rfl

/-- C6: once headers have been sent, `set`, `remove`, `append` and `vary`
leave the response (in particular its outbound headers) unchanged, while
`get` and `has` still read the current header values. -/
theorem header_helpers_noop_after_headers_sent (r : Resp) (f : String) (v : HVal)
    (hs : r.res.headersSent = true) :
    r.set f v = r ∧ r.remove f = r ∧ r.append f v = r ∧ r.varyF f = r
      ∧ r.get f = hdrGet r.res.headers f ∧ r.has f = hdrHas r.res.headers f := by
  refine ⟨by simp [Resp.set, hs], by simp [Resp.remove, hs], ?_, by simp [Resp.varyF, hs],
    rfl, rfl⟩
  unfold Resp.append
  cases h : r.get f with
  | none => simp [Resp.set, hs]
  | some prev => by_cases ht : prev.truthy <;> simp [ht, Resp.set, hs]

/-- Witness for C6 at a concrete sent response. -/
theorem header_helpers_noop_after_headers_sent_witness :
    rSent.set "X-T" (.str "1") = rSent ∧ rSent.remove "X-T" = rSent
      ∧ rSent.append "X-T" (.str "1") = rSent ∧ rSent.varyF "Accept" = rSent
      ∧ rSent.get "X-T" = hdrGet rSent.res.headers "X-T"
      ∧ rSent.has "X-T" = hdrHas rSent.res.headers "X-T" :=
  header_helpers_noop_after_headers_sent rSent "X-T" (.str "1") rfl

/-- C10: with a Transfer-Encoding header present, assigning `length` leaves
the response unchanged; and since the setter writes Content-Length only
when no Transfer-Encoding exists, the assignment never creates a state
carrying both headers. -/
theorem length_setter_transfer_encoding (r : Resp) (n : Nat) :
    (r.has "Transfer-Encoding" = true → r.lengthSet n = r)
    ∧ (¬(r.has "Transfer-Encoding" = true ∧ r.has "Content-Length" = true) →
       ¬((r.lengthSet n).has "Transfer-Encoding" = true
          ∧ (r.lengthSet n).has "Content-Length" = true)) := by
  constructor
  · intro h
    simp [Resp.lengthSet, h]
  · intro h hc
    by_cases hte : r.has "Transfer-Encoding" = true
    · rw [Resp.lengthSet, if_pos hte] at hc
      exact h hc
    · have hset : r.lengthSet n = r.set "Content-Length" (.str (toString n)) := by
        simp [Resp.lengthSet, hte]
      have : (r.lengthSet n).has "Transfer-Encoding" = r.has "Transfer-Encoding" := by
        rw [hset]
        exact Resp.has_set_ne r _ _ _ (by decide)
      rw [this] at hc
      exact hte hc.1

/-- Witness for C10 at a concrete response with Transfer-Encoding set. -/
theorem length_setter_transfer_encoding_witness :
    rTE.lengthSet 5 = rTE
      ∧ ¬((rTE.lengthSet 5).has "Transfer-Encoding" = true
          ∧ (rTE.lengthSet 5).has "Content-Length" = true) :=
  ⟨(length_setter_transfer_encoding rTE 5).1 (by decide),
   (length_setter_transfer_encoding rTE 5).2 (by decide)⟩

/-- C2: with headers not yet sent, the status setter fails with an
assertion error exactly when the code is not an integer or lies outside
100–999; an accepted code marks the explicit-status flag and becomes the
status, and when it is in the no-body class while the current body is
truthy, the body is cleared to `null`. -/
theorem status_setter_spec (r : Resp) (c : ℚ)
    (hs : r.res.headersSent = false) :
    ((∃ e, r.statusSet c = .error e) ↔ ¬(c.isInt = true ∧ 100 ≤ c ∧ c ≤ 999))
    ∧ (∀ r', r.statusSet c = .ok r' →
        r'.explicitStatus = true
        ∧ r'.res.statusCode = c.num.toNat
        ∧ (statusEmpty c.num.toNat = true → r.body.truthy = true →
            r'.body = .nullv)) := by
  rw [Resp.statusSet, if_neg (by simp [hs])]
  by_cases hint : c.isInt
  · by_cases hrange : 100 ≤ c ∧ c ≤ 999
    · rw [if_neg (by simp [hint]), if_neg (by simp [hrange])]
      constructor
      · simp [hint, hrange]
      · intro r' hr'
        have hr'' : r' = r.setStatusCore c.num.toNat := by
          exact ((Except.ok.injEq _ _).mp hr').symm
        subst hr''
        refine ⟨Resp.setStatusCore_explicitStatus r _,
          Resp.setStatusCore_statusCode r _, ?_⟩
        intro hempty htruthy
        exact Resp.setStatusCore_body_cleared r _ (by simp [htruthy, hempty])
    · rw [if_neg (by simp [hint]), if_pos (by simpa using hrange)]
      constructor
      · simp [hrange]
      · intro r' hr'
        cases hr'
  · rw [if_pos (by simpa using hint)]
    constructor
    · simp [hint]
    · intro r' hr'
      cases hr'

/-- Witness for C2: setting status 204 on a response with a truthy body
marks the explicit status, stores 204 and clears the body. -/
theorem status_setter_spec_witness :
    (rJsonCT.setStatusCore (204 : ℚ).num.toNat).explicitStatus = true
    ∧ (rJsonCT.setStatusCore (204 : ℚ).num.toNat).res.statusCode = (204 : ℚ).num.toNat
    ∧ (rJsonCT.setStatusCore (204 : ℚ).num.toNat).body = BodyVal.nullv := by
  have h := (status_setter_spec rJsonCT 204 rfl).2
    (rJsonCT.setStatusCore (204 : ℚ).num.toNat) rfl
  exact ⟨h.1, h.2.1, h.2.2 (by decide) (by decide)⟩

/-- C1: setting the body to `null` while the current status is not in the
no-body class either (a) turns the body into the literal string `"null"`
when the current Content-Type is `application/json`, leaving status and
headers untouched, or (b) resets the status to 204, records the
explicit-null-body flag and removes the Content-Type, Content-Length and
Transfer-Encoding headers. -/
theorem body_null_spec (r : Resp)
    (hs : r.res.headersSent = false)
    (hne : statusEmpty r.res.statusCode = false) :
    (r.type = "application/json" →
      (r.setBody .nullv).body = .str "null"
      ∧ (r.setBody .nullv).res.statusCode = r.res.statusCode
      ∧ (r.setBody .nullv).res.headers = r.res.headers)
    ∧ (r.type ≠ "application/json" →
      (r.setBody .nullv).res.statusCode = 204
      ∧ (r.setBody .nullv).explicitNullBody = true
      ∧ (r.setBody .nullv).has "Content-Type" = false
      ∧ (r.setBody .nullv).has "Content-Length" = false
      ∧ (r.setBody .nullv).has "Transfer-Encoding" = false) := by
  have hr1 : ({ r with body := BodyVal.nullv } : Resp).res = r.res := rfl
  have htype : ({ r with body := BodyVal.nullv } : Resp).type = r.type := rfl
  constructor
  · intro hjson
    have hbody : r.setBody .nullv = { r with body := BodyVal.str "null" } := by
      simp only [Resp.setBody, BodyVal.isNullish, if_true]
      rw [if_pos (hr1 ▸ hne), if_pos (htype ▸ hjson)]
    rw [hbody]
    exact ⟨rfl, rfl, rfl⟩
  · intro hjson
    have hbody : r.setBody .nullv =
        (({ r with body := BodyVal.nullv } : Resp).statusAssign 204).bodyNullTail true := by
      simp only [Resp.setBody, BodyVal.isNullish, if_true]
      rw [if_pos (hr1 ▸ hne), if_neg (htype ▸ hjson)]
      rfl
    have ha : ({ r with body := BodyVal.nullv } : Resp).statusAssign 204
        = ({ r with body := BodyVal.nullv } : Resp).setStatusCore 204 := by
      simp [Resp.statusAssign, hr1, hs]
    have hsent : (({ r with body := BodyVal.nullv } : Resp).statusAssign 204).res.headersSent
        = false := by
      rw [ha, Resp.setStatusCore_headersSent, hr1, hs]
    have hstrip := Resp.bodyNullTail_strips
      (({ r with body := BodyVal.nullv } : Resp).statusAssign 204) true hsent
    refine ⟨?_, ?_, ?_, ?_, ?_⟩
    · rw [hbody, Resp.bodyNullTail_statusCode, ha, Resp.setStatusCore_statusCode]
    · rw [hbody, Resp.bodyNullTail_explicitNullBody_true]
    · rw [hbody]; exact hstrip.1
    · rw [hbody]; exact hstrip.2.1
    · rw [hbody]; exact hstrip.2.2

/-- C3: assigning a string body on a response with no Content-Type and
headers unsent infers `text/html` when the string opens with `<` after
leading whitespace and `text/plain` otherwise, and records the string's
UTF-8 byte length as Content-Length (which the `length` setter writes,
there being no Transfer-Encoding). -/
theorem body_string_spec (r : Resp) (s : String)
    (hs : r.res.headersSent = false)
    (hct : r.has "Content-Type" = false)
    (hte : r.has "Transfer-Encoding" = false) :
    (r.setBody (.str s)).type
      = (if jsLeadingLt s then "text/html" else "text/plain")
    ∧ (r.setBody (.str s)).get "Content-Length"
      = some (.str (toString s.utf8ByteSize)) := by
  have hbres : ({ r with body := BodyVal.str s } : Resp).res = r.res := rfl
  set rb : Resp := { r with body := BodyVal.str s } with hrb
  set r2 : Resp := if rb.explicitStatus = false then rb.statusAssign 200 else rb with hr2
  have h2headers : r2.res.headers = r.res.headers := by
    rw [hr2]
    split
    · rw [Resp.statusAssign, if_neg (by rw [hbres, hs]; simp)]
      rw [(Resp.setStatusCore_not_cleared rb 200 (by simp [statusEmpty])).1, hbres]
    · rw [hbres]
  have h2sent : r2.res.headersSent = false := by
    rw [hr2]
    split
    · rw [Resp.statusAssign, if_neg (by rw [hbres, hs]; simp)]
      rw [Resp.setStatusCore_headersSent, hbres, hs]
    · rw [hbres, hs]
  have h2ct : r2.has "Content-Type" = false := by
    show hdrHas r2.res.headers "Content-Type" = false
    rw [h2headers]
    exact hct
  have h2te : r2.has "Transfer-Encoding" = false := by
    show hdrHas r2.res.headers "Transfer-Encoding" = false
    rw [h2headers]
    exact hte
  have hred : r.setBody (.str s)
      = (r2.typeSet (if jsLeadingLt s then "html" else "text")).lengthSet
          s.utf8ByteSize := by
    simp only [Resp.setBody, BodyVal.isNullish, Bool.false_eq_true, if_false, ← hrb, ← hr2]
    rw [if_pos h2ct]
  have htyset : ∀ tok ct : String, getType tok = some ct →
      r2.typeSet tok = r2.set "Content-Type" (.str ct) := by
    intro tok ct hg
    rw [Resp.typeSet, hg]
  have hteAfter : ∀ v : HVal,
      (r2.set "Content-Type" v).has "Transfer-Encoding" = false := by
    intro v
    rw [Resp.has_set_ne _ _ _ _ (by decide)]
    exact h2te
  have hfinal : ∀ v : HVal,
      ((r2.set "Content-Type" v).lengthSet s.utf8ByteSize)
        = (r2.set "Content-Type" v).set "Content-Length"
            (.str (toString s.utf8ByteSize)) := by
    intro v
    rw [Resp.lengthSet, if_neg (by rw [hteAfter v]; simp)]
  have hsent2 : ∀ v : HVal, (r2.set "Content-Type" v).res.headersSent = false := by
    intro v
    rw [Resp.headersSent_set]
    exact h2sent
  by_cases hlt : jsLeadingLt s = true
  · rw [hred, if_pos hlt,
      htyset "html" "text/html; charset=utf-8" rfl, hfinal, if_pos hlt]
    constructor
    · unfold Resp.type
      rw [Resp.get_set_ne _ _ _ _ (by decide), Resp.get_set_self _ _ _ h2sent]
      decide
    · exact Resp.get_set_self _ _ _ (hsent2 _)
  · rw [hred, if_neg hlt,
      htyset "text" "text/plain; charset=utf-8" rfl, hfinal, if_neg hlt]
    constructor
    · unfold Resp.type
      rw [Resp.get_set_ne _ _ _ _ (by decide), Resp.get_set_self _ _ _ h2sent]
      decide
    · exact Resp.get_set_self _ _ _ (hsent2 _)

/-- Witness for C3: a markup fragment on a fresh response. -/
theorem body_string_spec_witness :
    (rFresh.setBody (.str " <p>hi</p>")).type = "text/html"
    ∧ (rFresh.setBody (.str " <p>hi</p>")).get "Content-Length"
      = some (.str (toString (" <p>hi</p>" : String).utf8ByteSize)) := by
  have h := body_string_spec rFresh " <p>hi</p>" rfl (by decide) (by decide)
  rw [if_pos (by decide)] at h
  exact h

/-- Witness for C1: the non-JSON branch at a fresh 200 response. -/
theorem body_null_spec_witness :
    (rFresh.setBody .nullv).res.statusCode = 204
    ∧ (rFresh.setBody .nullv).explicitNullBody = true
    ∧ (rFresh.setBody .nullv).has "Content-Type" = false
    ∧ (rFresh.setBody .nullv).has "Content-Length" = false
    ∧ (rFresh.setBody .nullv).has "Transfer-Encoding" = false :=
  (body_null_spec rFresh rfl rfl).2 (by decide)

/-- C5: a finalized HEAD request (auto-respond on, transport writable,
status outside the empty class) is ended with no payload; and when headers
are unsent and no Content-Length is present, the Content-Length header is
first set to the length derived from the body by the `length` getter
(string byte length, buffer length, or JSON serialization byte length),
provided no Transfer-Encoding header blocks the length setter. -/
theorem respond_head_spec (ctx : Ctx)
    (hflag : ctx.respondFlag = true)
    (hw : ctx.writable = true)
    (hm : ctx.method = "HEAD")
    (hne : statusEmpty ctx.resp.res.statusCode = false) :
    (respond ctx).2 = .ended none
    ∧ (∀ n : Nat,
        ctx.resp.res.headersSent = false →
        ctx.resp.has "Content-Length" = false →
        ctx.resp.has "Transfer-Encoding" = false →
        ctx.resp.lengthGet = some n →
        (respond ctx).1.resp.get "Content-Length"
          = some (.str (toString n))) := by
  have hr : respond ctx =
      ({ ctx with resp :=
          if ctx.resp.res.headersSent = false ∧ ctx.resp.has "Content-Length" = false then
            match ctx.resp.lengthGet with
            | some n => ctx.resp.lengthSet n
            | none => ctx.resp
          else ctx.resp }, .ended none) := by
    rw [respond, if_neg (by rw [hflag]; simp), if_neg (by rw [hw]; simp),
      if_neg (by rw [hne]; simp), if_pos hm]
  constructor
  · rw [hr]
  · intro n h1 h2 h3 h4
    rw [hr]
    show (if ctx.resp.res.headersSent = false ∧ ctx.resp.has "Content-Length" = false then
        match ctx.resp.lengthGet with
        | some n => ctx.resp.lengthSet n
        | none => ctx.resp
      else ctx.resp).get "Content-Length" = some (.str (toString n))
    rw [if_pos ⟨h1, h2⟩, h4]
    show (ctx.resp.lengthSet n).get "Content-Length" = some (.str (toString n))
    rw [Resp.lengthSet, if_neg (by rw [h3]; simp)]
    exact Resp.get_set_self _ _ _ h1

/-- Witness for C5: a HEAD request with body `"hello"` ends with no
payload and Content-Length 5. -/
theorem respond_head_spec_witness :
    (respond ctxHead).2 = .ended none
    ∧ (respond ctxHead).1.resp.get "Content-Length"
      = some (.str (toString (5 : Nat))) := by
  have h := respond_head_spec ctxHead rfl rfl rfl rfl
  exact ⟨h.1, h.2 5 rfl (by decide) (by decide) (by decide)⟩

/-- C7: the application error hook throws the "non-error thrown"
TypeError exactly when the value is not a genuine Error; for genuine
errors it writes nothing when the status is 404, the error is exposable,
or the app is silent, and otherwise writes the diagnostic text wrapped in
newlines with every line two-space indented. -/
theorem onerror_spec (silent : Bool) (e : ErrVal) :
    (e.isError = false →
      Application.onerror silent e = .error "non-error thrown")
    ∧ (e.isError = true →
      ((e.status = some 404 ∨ e.expose = true ∨ silent = true) →
        Application.onerror silent e = .ok none)
      ∧ ((e.status ≠ some 404 ∧ e.expose = false ∧ silent = false) →
        ∃ ls : List String,
          Application.onerror silent e
            = .ok (some ("\n" ++ String.intercalate "\n" ls ++ "\n"))
          ∧ ls = (splitNl e.msg).map (fun l => "  " ++ l)
          ∧ ∀ l ∈ ls, ∃ t, l = "  " ++ t)) := by
  constructor
  · intro hne
    rw [Application.onerror, if_pos hne]
  · intro hyes
    constructor
    · intro h
      rw [Application.onerror, if_neg (by rw [hyes]; simp)]
      rcases h with h | h | h
      · rw [if_pos (Or.inl h)]
      · rw [if_pos (Or.inr h)]
      · by_cases h4 : e.status = some 404 ∨ e.expose = true
        · rw [if_pos h4]
        · rw [if_neg h4, if_pos (by rw [h])]
    · intro h
      refine ⟨(splitNl e.msg).map (fun l => "  " ++ l), ?_, rfl, ?_⟩
      · rw [Application.onerror, if_neg (by rw [hyes]; simp),
          if_neg (by simp [h.1, h.2.1]), if_neg (by rw [h.2.2]; simp)]
        rfl
      · intro l hl
        rcases List.mem_map.mp hl with ⟨x, _, hx⟩
        exact ⟨x, hx.symm⟩

/-- Witness for C7: an unexposed 500 error on a non-silent app is written
with each line of its stack indented. -/
theorem onerror_spec_witness :
    Application.onerror false errBoom
      = .ok (some "\n  Error: boom\n      at handler\n") := by
  have h := ((onerror_spec false errBoom).2 rfl).2
    (by refine ⟨by decide, rfl, rfl⟩)
  rcases h with ⟨ls, h1, h2, _⟩
  rw [h2] at h1
  have heq : "\n" ++ String.intercalate "\n"
      ((splitNl errBoom.msg).map (fun l => "  " ++ l)) ++ "\n"
      = "\n  Error: boom\n      at handler\n" := by decide
  rw [h1, heq]

/-- C8: with proxy trust on and a non-empty forwarding header, `ips` is
the header split on commas (whitespace around separators consumed),
truncated to the last `maxIpsCount` entries when that count is positive;
with trust off or the header absent, `ips` is empty. -/
theorem ips_spec (app : AppCfg) (rq : ReqSt) :
    (app.proxy = true → rq.get app.proxyIpHeader ≠ "" →
      Request.ips app rq =
        (if 0 < app.maxIpsCount then
          (splitCommaWs (rq.get app.proxyIpHeader)).drop
            ((splitCommaWs (rq.get app.proxyIpHeader)).length - app.maxIpsCount)
        else splitCommaWs (rq.get app.proxyIpHeader)))
    ∧ ((app.proxy = false ∨ rq.get app.proxyIpHeader = "") →
      Request.ips app rq = []) := by
  constructor
  · intro hp hv
    simp only [Request.ips]
    have hcond : app.proxy = true ∧ rq.get app.proxyIpHeader ≠ "" := ⟨hp, hv⟩
    rw [if_pos hcond]
  · intro h
    simp only [Request.ips]
    have hcond : ¬(app.proxy = true ∧ rq.get app.proxyIpHeader ≠ "") := by
      rintro ⟨h1, h2⟩
      rcases h with h | h
      · rw [h] at h1; exact Bool.noConfusion h1
      · exact h2 h
    rw [if_neg hcond]
    split <;> simp

/-- Witness for C8: the spec's example — proxy on,
`X-Forwarded-For: 1.1.1.1, 2.2.2.2`, `maxIpsCount = 1`. -/
theorem ips_spec_witness : Request.ips appFwd reqFwd = ["2.2.2.2"] := by
  have h := (ips_spec appFwd reqFwd).1 rfl (by decide)
  rw [h]
  decide

/-- The execution cursor only moves forward: a successful `dispatch j`
returns a cursor at or beyond `j`.  Induction on the distance from `j` to
the end of the chain, with a nested induction over a handler's sequence of
`next` invocations. -/
theorem dispatchAux (mws : List Nat) :
    ∀ d j index r, mws.length + 1 - j ≤ d →
      dispatch mws j index = .ok r → (j : Int) ≤ r := by
  intro d
  induction d with
  | zero =>
    intro j index r hd hok
    unfold dispatch at hok
    by_cases hle : (j : Int) ≤ index
    · rw [if_pos hle] at hok
      cases hok
    · rw [if_neg hle] at hok
      rw [List.getElem?_eq_none (by omega)] at hok
      simp at hok
      omega
  | succ d ih =>
    intro j index r hd hok
    unfold dispatch at hok
    by_cases hle : (j : Int) ≤ index
    · rw [if_pos hle] at hok
      cases hok
    · rw [if_neg hle] at hok
      cases hget : mws[j]? with
      | none =>
        rw [hget] at hok
        simp at hok
        omega
      | some n =>
        rw [hget] at hok
        have hmeas : mws.length + 1 - (j + 1) ≤ d := by omega
        have hcall : ∀ k idx rr, callNexts mws k (j + 1) idx = .ok rr →
            idx ≤ rr := by
          intro k
          induction k with
          | zero =>
            intro idx rr hc
            unfold callNexts at hc
            simp at hc
            omega
          | succ k ihk =>
            intro idx rr hc
            unfold callNexts at hc
            cases hdisp : dispatch mws (j + 1) idx with
            | error e =>
              rw [hdisp] at hc
              cases hc
            | ok m =>
              rw [hdisp] at hc
              have h1 : ((j + 1 : Nat) : Int) ≤ m := ih (j + 1) idx m hmeas hdisp
              have h2 : ¬ ((j + 1 : Nat) : Int) ≤ idx := by
                intro hcon
                unfold dispatch at hdisp
                rw [if_pos hcon] at hdisp
                cases hdisp
              have h3 : m ≤ rr := ihk m rr hc
              push_cast at h1 h2
              omega
        exact hcall n (j : Int) r hok

/-- A successful first invocation of a bound `next` leaves the cursor at
or beyond the dispatched position. -/
theorem dispatch_ok_le (mws : List Nat) (j : Nat) (index r : Int)
    (h : dispatch mws j index = .ok r) : (j : Int) ≤ r :=
  dispatchAux mws (mws.length + 1 - j) j index r (Nat.le_refl _) h

/-- C4: in any composed chain, once handler `i`'s bound `next`
(`dispatch (i+1)`) has completed an invocation, invoking it again within
the same execution fails with "next() called multiple times" — the guard
fires on the already-advanced cursor before anything else runs. -/
theorem next_called_twice_fails (mws : List Nat) (i : Nat) (index index' : Int)
    (hfirst : dispatch mws (i + 1) index = .ok index') :
    dispatch mws (i + 1) index' = .error "next() called multiple times" := by
  have hle := dispatch_ok_le mws (i + 1) index index' hfirst
  unfold dispatch
  rw [if_pos hle]

/-- Witness for C4: in the chain `[2, 0]` handler 0 calls `next` twice;
the first call succeeds, the repeat fails. -/
theorem next_called_twice_fails_witness :
    dispatch [2, 0] 1 0 = .ok 1
    ∧ dispatch [2, 0] 1 1 = .error "next() called multiple times" := by
  have h1 : dispatch [2, 0] 1 0 = .ok 1 := by
    unfold dispatch
    norm_num
    unfold callNexts
    rfl
  exact ⟨h1, next_called_twice_fails [2, 0] 0 0 1 h1⟩

end KoaTS
